import Mathlib

/-!
Shallow embedding of the gamification/progression core of the todo_api
frontend (`src/unnamed/part_001`).  Catalog constants, the client-side
purchase/equip handlers and the theme-unlock reconciliation are translated
from the source; server-side ledger operations that the frontend only calls
over HTTP are modelled from the spec and marked as such in their doc
comments.
-/

namespace TodoApi

/-- A store catalog entry, translated from the literal objects in
`themeStoreItems` / `titleStoreItems` (part_001 lines 55-127).  Absent JS
fields are the defaults: `purchasable` defaults to true (only an explicit
`purchasable: false` blocks buying), `unlockLevel` / `unlockInventory`
default to absent. -/
structure StoreItem where
  key : String
  price : Nat
  purchasable : Bool := true
  unlockLevel : Option Nat := none
  unlockInventory : Option Nat := none
deriving Repr, DecidableEq

/-- Keys of the `themes` object (part_001 lines 23-31), in object order. -/
def themeKeys : List String :=
  ["default", "cozy", "minimal", "space", "royalGarden", "beachDay", "football"]

/-- `themeStoreItems` (part_001 lines 55-76). -/
def themeStoreItems : List StoreItem :=
  [ { key := "royalGarden", price := 150 },
    { key := "beachDay", price := 150 },
    { key := "football", price := 0, purchasable := false, unlockLevel := some 10 } ]

/-- `titleStoreItems` (part_001 lines 78-127). -/
def titleStoreItems : List StoreItem :=
  [ { key := "rookie", price := 0, purchasable := false, unlockLevel := some 2 },
    { key := "baller", price := 0, purchasable := false, unlockLevel := some 5 },
    { key := "junior", price := 20 },
    { key := "workaholic", price := 50 },
    { key := "brainiac", price := 100 },
    { key := "holy-temple", price := 500 },
    { key := "collector", price := 0, purchasable := false, unlockInventory := some 9 } ]

/-- One entry of `levelLockedThemes` (part_001 line 43). -/
structure LevelLock where
  key : String
  level : Nat
deriving Repr, DecidableEq

/-- `levelLockedThemes = [{ key: "football", level: 10 }]` (part_001 line 43). -/
def levelLockedThemes : List LevelLock := [{ key := "football", level := 10 }]

/-- `themeLevelRequirement` (part_001 lines 44-47): map from theme key to its
required level, built from `levelLockedThemes`. -/
def themeLevelRequirement (k : String) : Option Nat :=
  (levelLockedThemes.find? (fun e => e.key == k)).map (fun e => e.level)

/-- `getLevelUnlockedThemes` (part_001 line 48). -/
def getLevelUnlockedThemes (level : Nat) : List String :=
  (levelLockedThemes.filter (fun e => decide (level ≥ e.level))).map (fun e => e.key)

/-- `filterThemesByLevel` (part_001 lines 49-53): keep a key when it has no
level requirement or the requirement is met. -/
def filterThemesByLevel (keys : List String) (level : Nat) : List String :=
  keys.filter (fun k =>
    match themeLevelRequirement k with
    | none => true
    | some r => decide (level ≥ r))

/-- `baseUnlockedThemes` (part_001 line 134): theme keys that are not store
items. -/
def baseUnlockedThemes : List String :=
  themeKeys.filter (fun k => !(themeStoreItems.any (fun item => item.key == k)))

/-- One step of JS `new Set([...])` construction: append the element unless
already present (first occurrence wins). -/
def addUnique (acc : List String) (x : String) : List String :=
  if x ∈ acc then acc else acc ++ [x]

/-- `Array.from(new Set(xs))`: deduplicate keeping first occurrences. -/
def jsSetOf (xs : List String) : List String := xs.foldl addUnique []

/-- `syncUnlockedFromInventory` (part_001 lines 560-581), restricted to its
pure computation: merge base themes, the locally stored keys, the account
inventory and the level-auto-unlocked keys, deduplicate, then filter by the
account level.  The result is both the new `unlockedThemes` state and what is
written back to storage. -/
def syncUnlockedFromInventory (stored inventoryList : List String) (level : Nat) :
    List String :=
  filterThemesByLevel
    (jsSetOf (baseUnlockedThemes ++ stored ++ inventoryList ++
      getLevelUnlockedThemes level))
    level

/-- The theme fallback effect (part_001 lines 614-620): when the active theme
is not in the unlocked set, reset it to `baseUnlockedThemes[0] || "default"`. -/
def themeFallback (unlocked : List String) (theme : String) : String :=
  if theme ∈ unlocked then theme else baseUnlockedThemes.headD "default"

example : baseUnlockedThemes = ["default", "cozy", "minimal", "space"] := by rfl
example : getLevelUnlockedThemes 10 = ["football"] := by rfl
example : getLevelUnlockedThemes 9 = [] := by rfl

/-- The account progression state of the spec's data model (spec section 3).
Server-persisted fields mirror the user record the frontend receives
(`check_coins`, `xp`, `level`, `login_streak`, `login_best`,
`tasks_checked_off`, `tasks_checked_off_today`, `inventory`, `titles`,
`current_title`); `lastLoginDay` is the calendar-day stamp that makes
login-day idempotence expressible. -/
structure Account where
  currency : Nat
  xp : Nat
  level : Nat
  loginStreak : Nat
  loginStreakBest : Nat
  lastLoginDay : Int
  tasksCheckedOff : Nat
  tasksCheckedOffToday : Nat
  goals : Nat
  inventory : List String
  titles : List String
  currentTheme : String
  currentTitle : String
deriving Repr, DecidableEq

/-- Modelled from the spec: the level-up normalization loop of `addXp`
(spec section 4.2) — the server-side progression engine is not under `src/`.
While `xp >= 100`, do `level += 1; xp -= 100`. -/
def levelLoop (xp level : Nat) : Nat × Nat :=
  if h : 100 ≤ xp then levelLoop (xp - 100) (level + 1) else (xp, level)
termination_by xp
decreasing_by omega

/-- Modelled from the spec: `addXp(account, amount)` (spec section 4.2) —
the server-side progression engine is not under `src/`.  Adds `amount` to
`xp`, then runs the repeated-subtraction level-up loop. -/
def addXp (a : Account) (amount : Nat) : Account :=
  let p := levelLoop (a.xp + amount) a.level
  { a with xp := p.1, level := p.2 }

/-- Milestone bonus table: thresholds and amounts from `CoinsInfoModal`
(part_001 lines 3421-3427): +20 at streak 5, +50 at 10, +100 at 20,
+300 at 50. -/
def milestoneBonus (streak : Nat) : Nat :=
  if streak = 5 then 20
  else if streak = 10 then 50
  else if streak = 20 then 100
  else if streak = 50 then 300
  else 0

/-- Modelled from the spec: `applyLoginDay` (spec section 4.1) — the
server-side login ledger is not under `src/`; bonus amounts are the
constants displayed by `CoinsInfoModal` in the source.  A repeated call for
the day already recorded in `lastLoginDay` is a no-op; a consecutive day
increments the streak, raises the best streak and awards 10 coins plus the
milestone bonus of the new streak value; a non-consecutive day resets the
streak to 1. -/
def applyLoginDay (a : Account) (today : Int) : Account :=
  if today = a.lastLoginDay then a
  else if today = a.lastLoginDay + 1 then
    let s := a.loginStreak + 1
    { a with loginStreak := s,
             loginStreakBest := max a.loginStreakBest s,
             currency := a.currency + 10 + milestoneBonus s,
             lastLoginDay := today }
  else
    { a with loginStreak := 1,
             loginStreakBest := max a.loginStreakBest 1,
             lastLoginDay := today }

/-- A todo task, reduced to the completion flag the ledger cares about. -/
structure Task where
  id : Nat
  completed : Bool
deriving Repr, DecidableEq

/-- Typed errors of the core (spec section 7). -/
inductive CoreError where
  | InvalidStateTransition
  | UnknownItem
  | NotPurchasable
  | LevelTooLow
  | AlreadyOwned
  | InsufficientFunds
  | PriceMismatch
  | NotOwned
deriving Repr, DecidableEq

/-- Modelled from the spec: `applyTaskCompletion` (spec section 4.1) — the
server-side handler behind `PUT /edit_a_todo` is not under `src/`.  Rejects
with `InvalidStateTransition` when the task is already completed; otherwise
increments both check-off counters, awards the policy XP and coin constants
(kept abstract as arguments) and marks the task completed. -/
def applyTaskCompletion (xpAward coinAward : Nat) (a : Account) (t : Task) :
    Except CoreError (Account × Task) :=
  if t.completed then .error .InvalidStateTransition
  else .ok
    ( addXp { a with tasksCheckedOff := a.tasksCheckedOff + 1,
                     tasksCheckedOffToday := a.tasksCheckedOffToday + 1,
                     currency := a.currency + coinAward } xpAward,
      { t with completed := true } )

/-- Modelled from the spec: `applyGoalScored` (spec section 4.1) — not under
`src/`.  Pure counter increment. -/
def applyGoalScored (a : Account) : Account :=
  { a with goals := a.goals + 1 }

/-- Modelled from the spec: the server-side `purchase` transaction (spec
section 4.4) — the handler behind `POST /store/purchase` is not under
`src/`; the catalog it is run against (`themeStoreItems`, `titleStoreItems`)
is from the source.  Preconditions in the spec's order, first failure wins;
on success debit the price and append the key to the inventory. -/
def purchase (catalog : List StoreItem) (a : Account) (itemKey : String)
    (expectedPrice : Nat) : Except CoreError Account :=
  match catalog.find? (fun e => e.key == itemKey) with
  | none => .error .UnknownItem
  | some item =>
    if item.purchasable = false then .error .NotPurchasable
    else if item.unlockLevel.getD 0 > a.level then .error .LevelTooLow
    else if itemKey ∈ a.inventory then .error .AlreadyOwned
    else if a.currency < item.price then .error .InsufficientFunds
    else if expectedPrice ≠ item.price then .error .PriceMismatch
    else .ok { a with currency := a.currency - item.price,
                      inventory := a.inventory ++ [itemKey] }

/-- The level auto-unlock effect (part_001 lines 601-612), the source's
`reconcile`: compute the level-unlocked theme keys missing from the
inventory; when none are missing do nothing, otherwise append them. -/
def reconcile (a : Account) : Account :=
  if ((getLevelUnlockedThemes a.level).filter
      (fun k => decide (k ∉ a.inventory))).isEmpty then a
  else { a with inventory := a.inventory ++
    (getLevelUnlockedThemes a.level).filter (fun k => decide (k ∉ a.inventory)) }

/-- The slice of React component state that the store/equip handlers read
and write: the signed-in user's level, coin balance, computed
`unlockedThemes`, owned titles, and the active theme/title. -/
structure ClientState where
  signedIn : Bool
  userLevel : Nat
  checkCoins : Nat
  unlockedThemes : List String
  titles : List String
  currentTheme : String
  currentTitle : String
deriving Repr, DecidableEq

/-- Outcome of the client-side precondition chain of `handleThemePurchase`:
either the first failing check's user-facing notice, or the request that is
sent to `POST /store/purchase`. -/
inductive ClientPurchaseStep where
  | noItem
  | levelTooLow
  | notPurchasable
  | notSignedIn
  | alreadyOwned
  | insufficientFunds
  | requestServer (price : Nat)
deriving Repr, DecidableEq

/-- JS truthiness test `item.unlockLevel && userLevel < item.unlockLevel`. -/
def levelLocked (item : StoreItem) (lvl : Nat) : Bool :=
  match item.unlockLevel with
  | some req => decide (lvl < req)
  | none => false

/-- `handleThemePurchase` (part_001 lines 663-697): the client-side
precondition chain before the server call, checks in source order — item
lookup, level gate, purchasable flag, signed-in, already-unlocked, coin
balance. -/
def handleThemePurchase (st : ClientState) (themeKey : String) :
    ClientPurchaseStep :=
  match themeStoreItems.find? (fun e => e.key == themeKey) with
  | none => .noItem
  | some item =>
    if levelLocked item st.userLevel then .levelTooLow
    else if item.purchasable = false then .notPurchasable
    else if st.signedIn = false then .notSignedIn
    else if themeKey ∈ st.unlockedThemes then .alreadyOwned
    else if st.checkCoins < item.price then .insufficientFunds
    else .requestServer item.price

/-- `handleEquipTheme` (part_001 lines 879-887): reject with a notice when
the theme is not unlocked, otherwise set the active theme.  Returns the new
state and the notice shown. -/
def handleEquipTheme (st : ClientState) (themeKey : String) :
    ClientState × Option CoreError :=
  if themeKey ∈ st.unlockedThemes then
    ({ st with currentTheme := themeKey }, none)
  else (st, some .NotOwned)

/-- `handleEquipTitle` (part_001 lines 789-823): requires sign-in and title
ownership (`userTitles.includes`), then sets `current_title`.  Returns the
new state and the error notice, if any. -/
def handleEquipTitle (st : ClientState) (titleKey : String) :
    ClientState × Option CoreError :=
  if st.signedIn = false then (st, some .NotOwned)
  else if titleKey ∈ st.titles then
    ({ st with currentTitle := titleKey }, none)
  else (st, some .NotOwned)

/-- Raw persisted user fields as found in `localStorage` — each is either a
finite number (`some`) or missing/non-numeric (`none`); out-of-range values
are representable. -/
structure StoredUser where
  xp : Option Int
  level : Option Int
  checkCoins : Option Int
deriving Repr, DecidableEq

/-- The loaded user produced by the stored-user effect. -/
structure LoadedUser where
  xp : Int
  level : Int
  checkCoins : Int
deriving Repr, DecidableEq

/-- The stored-user load effect (part_001 lines 372-412): each numeric field
is taken verbatim when finite, defaulted otherwise
(`Number.isFinite(parsed.xp) ? parsed.xp : 0`, level defaults to 1,
`check_coins || 0`).  The account is accepted unconditionally — there is no
validation branch and no error result. -/
def loadStoredUser (p : StoredUser) : LoadedUser :=
  { xp := p.xp.getD 0,
    level := p.level.getD 1,
    checkCoins := p.checkCoins.getD 0 }

/-- `xpProgress` (part_001 line 349):
`Number.isFinite(user?.xp) ? Math.min(Math.max(user.xp, 0), 100) : 0`. -/
def xpProgress (xp : Option Int) : Int :=
  match xp with
  | some v => min (max v 0) 100
  | none => 0

/-- `userLevel` (part_001 line 350):
`Number.isFinite(user?.level) ? Math.max(user.level, 1) : 1`. -/
def userLevelOf (level : Option Int) : Int :=
  match level with
  | some v => max v 1
  | none => 1

/-! Helper lemmas. -/

/-- The repeated-subtraction loop computes div/mod by 100. -/
theorem levelLoop_eq (xp level : Nat) :
    levelLoop xp level = (xp % 100, level + xp / 100) := by
  induction xp using Nat.strong_induction_on generalizing level with
  | _ xp ih =>
    rw [levelLoop]
    split
    · rw [ih (xp - 100) (by omega)]
      have h1 : (xp - 100) % 100 = xp % 100 := by omega
      have h2 : level + 1 + (xp - 100) / 100 = level + xp / 100 := by omega
      rw [h1, h2]
    · have h1 : xp % 100 = xp := Nat.mod_eq_of_lt (by omega)
      have h2 : xp / 100 = 0 := Nat.div_eq_of_lt (by omega)
      rw [h1, h2]
      simp

theorem mem_foldl_addUnique (xs : List String) (acc : List String) (x : String) :
    x ∈ xs.foldl addUnique acc ↔ x ∈ acc ∨ x ∈ xs := by
  induction xs generalizing acc with
  | nil => simp
  | cons y ys ih =>
    rw [List.foldl_cons, ih]
    unfold addUnique
    split
    · simp only [List.mem_cons]
      constructor
      · rintro (h | h) <;> tauto
      · rintro (h | rfl | h) <;> tauto
    · simp only [List.mem_append, List.mem_singleton, List.mem_cons]
      tauto

theorem mem_jsSetOf (xs : List String) (x : String) :
    x ∈ jsSetOf xs ↔ x ∈ xs := by
  simp [jsSetOf, mem_foldl_addUnique]

/-- Inventory keys survive the reconcile step. -/
theorem reconcile_inventory_superset (a : Account) :
    a.inventory ⊆ (reconcile a).inventory := by
  unfold reconcile
  split
  · exact fun x hx => hx
  · exact fun x hx => List.mem_append.mpr (Or.inl hx)

/-- Every level-unlocked key is owned after the reconcile step. -/
theorem mem_reconcile_of_levelUnlocked (a : Account) (k : String)
    (hlv : k ∈ getLevelUnlockedThemes a.level) : k ∈ (reconcile a).inventory := by
  by_cases hk : k ∈ a.inventory
  · exact reconcile_inventory_superset a hk
  · have hmiss : k ∈ (getLevelUnlockedThemes a.level).filter
        (fun k => decide (k ∉ a.inventory)) := by
      rw [List.mem_filter]
      exact ⟨hlv, by simpa using hk⟩
    unfold reconcile
    split
    · next hemp =>
        rw [List.isEmpty_iff] at hemp
        rw [hemp] at hmiss
        cases hmiss
    · exact List.mem_append.mpr (Or.inr hmiss)

/-- Reconcile is a no-op when nothing level-unlocked is missing. -/
theorem reconcile_eq_self (a : Account)
    (h : ∀ k ∈ getLevelUnlockedThemes a.level, k ∈ a.inventory) :
    reconcile a = a := by
  have hfil : (getLevelUnlockedThemes a.level).filter
      (fun k => decide (k ∉ a.inventory)) = [] :=
    List.filter_eq_nil_iff.mpr (fun k hk => by simpa using h k hk)
  unfold reconcile
  rw [hfil]
  rfl

theorem reconcile_level (a : Account) : (reconcile a).level = a.level := by
  unfold reconcile
  split <;> rfl

/-- A fresh account as created at signup (spec section 3 lifecycle):
no coins, no XP, level 1, empty inventory. -/
def emptyAccount : Account :=
  { currency := 0, xp := 0, level := 1, loginStreak := 0, loginStreakBest := 0,
    lastLoginDay := 0, tasksCheckedOff := 0, tasksCheckedOffToday := 0, goals := 0,
    inventory := [], titles := [], currentTheme := "default", currentTitle := "" }

/-- Spec section 8 scenario input: a fresh account holding 200 coins. -/
def account200 : Account := { emptyAccount with currency := 200 }

/-- Spec section 8 scenario input: a fresh account holding 100 coins. -/
def account100 : Account := { emptyAccount with currency := 100 }

/-- Expected result of buying "royalGarden" with 200 coins. -/
def account200After : Account :=
  { emptyAccount with currency := 50, inventory := ["royalGarden"] }

/-- Full characterization of a successful purchase: all preconditions held
and the result is the atomic debit-and-credit update. -/
theorem purchase_ok_spec (catalog : List StoreItem) (a : Account) (key : String)
    (p : Nat) (a' : Account) (h : purchase catalog a key p = .ok a') :
    ∃ item, catalog.find? (fun e => e.key == key) = some item ∧
      item.purchasable = true ∧ item.unlockLevel.getD 0 ≤ a.level ∧
      key ∉ a.inventory ∧ item.price ≤ a.currency ∧ p = item.price ∧
      a' = { a with currency := a.currency - item.price,
                    inventory := a.inventory ++ [key] } := by
  unfold purchase at h
  cases hfind : catalog.find? (fun e => e.key == key) with
  | none => rw [hfind] at h; cases h
  | some item =>
    rw [hfind] at h
    dsimp only at h
    by_cases h1 : item.purchasable = false
    · rw [if_pos h1] at h; cases h
    rw [if_neg h1] at h
    by_cases h2 : item.unlockLevel.getD 0 > a.level
    · rw [if_pos h2] at h; cases h
    rw [if_neg h2] at h
    by_cases h3 : key ∈ a.inventory
    · rw [if_pos h3] at h; cases h
    rw [if_neg h3] at h
    by_cases h4 : a.currency < item.price
    · rw [if_pos h4] at h; cases h
    rw [if_neg h4] at h
    by_cases h5 : p ≠ item.price
    · rw [if_pos h5] at h; cases h
    rw [if_neg h5] at h
    simp only [Except.ok.injEq] at h
    refine ⟨item, rfl, ?_, by omega, h3, by omega, by tauto, h.symm⟩
    simpa using h1

/-- Claim C2: purchase is atomic.  A successful purchase decreases currency
by exactly the item's price and appends exactly one new key to the
inventory, leaving every other progression field unchanged; in the pure
transaction model a failed purchase returns only an error and the input
account is untouched.  The spec scenario holds: buying "royalGarden"
(price 150) with 200 coins and an empty inventory yields 50 coins and
inventory ["royalGarden"], and with only 100 coins the purchase fails with
InsufficientFunds. -/
theorem purchase_atomic :
    (∀ (catalog : List StoreItem) (a : Account) (key : String) (p : Nat)
        (a' : Account), purchase catalog a key p = .ok a' →
      ∃ item, catalog.find? (fun e => e.key == key) = some item ∧
        a'.currency + item.price = a.currency ∧
        a'.inventory = a.inventory ++ [key] ∧ key ∉ a.inventory ∧
        a'.xp = a.xp ∧ a'.level = a.level ∧ a'.titles = a.titles ∧
        a'.loginStreak = a.loginStreak ∧ a'.loginStreakBest = a.loginStreakBest ∧
        a'.currentTheme = a.currentTheme ∧ a'.currentTitle = a.currentTitle) ∧
    purchase themeStoreItems account200 "royalGarden" 150 = .ok account200After ∧
    purchase themeStoreItems account100 "royalGarden" 150 =
      .error .InsufficientFunds := by
  refine ⟨?_, rfl, rfl⟩
  intro catalog a key p a' h
  obtain ⟨item, hfind, hpur, hlev, hmem, hprice, hp, hrec⟩ :=
    purchase_ok_spec catalog a key p a' h
  subst hrec
  exact ⟨item, hfind, by simp [Nat.sub_add_cancel hprice], rfl, hmem,
    rfl, rfl, rfl, rfl, rfl, rfl, rfl⟩

/-- Claim C2 witness: the general part of `purchase_atomic` applied to the
concrete 200-coin scenario. -/
theorem purchase_atomic_witness :
    ∃ item, themeStoreItems.find? (fun e => e.key == "royalGarden") = some item ∧
      account200After.currency + item.price = account200.currency ∧
      account200After.inventory = account200.inventory ++ ["royalGarden"] ∧
      "royalGarden" ∉ account200.inventory := by
  obtain ⟨item, h1, h2, h3, h4, -⟩ :=
    purchase_atomic.1 themeStoreItems account200 "royalGarden" 150
      account200After rfl
  exact ⟨item, h1, h2, h3, h4⟩

/-- Claim C3: `addXp` normalizes by the repeated-subtraction level-up loop:
afterwards `xp < 100` (and it is a natural number, hence non-negative), the
level increases by exactly `(xpBefore + amount) / 100`, the leftover xp is
`(xpBefore + amount) % 100`, and no other field changes; seven successive
15-XP awards on a fresh level-1 account give level 2 and xp 5. -/
theorem addXp_normalized :
    (∀ (a : Account) (n : Nat),
        (addXp a n).xp < 100 ∧
        (addXp a n).xp = (a.xp + n) % 100 ∧
        (addXp a n).level = a.level + (a.xp + n) / 100 ∧
        (addXp a n).currency = a.currency ∧
        (addXp a n).inventory = a.inventory) ∧
    (addXp (addXp (addXp (addXp (addXp (addXp (addXp emptyAccount 15) 15) 15)
        15) 15) 15) 15).level = 2 ∧
    (addXp (addXp (addXp (addXp (addXp (addXp (addXp emptyAccount 15) 15) 15)
        15) 15) 15) 15).xp = 5 := by
  have hgen : ∀ (a : Account) (n : Nat), addXp a n =
      { a with xp := (a.xp + n) % 100, level := a.level + (a.xp + n) / 100 } := by
    intro a n
    unfold addXp
    rw [levelLoop_eq]
  refine ⟨?_, ?_, ?_⟩
  · intro a n
    rw [hgen]
    exact ⟨Nat.mod_lt _ (by omega), rfl, rfl, rfl, rfl⟩
  · simp [hgen, emptyAccount]
  · simp [hgen, emptyAccount]

/-- An account that has just reached level 10. -/
def level10Account : Account := { emptyAccount with level := 10 }

/-- Claim C4: the level auto-unlock reconciliation is idempotent and grants
level-gated items without a purchase: every level-locked catalog entry whose
level the account meets is in the reconciled inventory, re-adding an
already-present key is a no-op, `reconcile (reconcile a) = reconcile a` for
all `a`, and an account at level 10 gains "football" automatically. -/
theorem reconcile_idempotent :
    (∀ a : Account, reconcile (reconcile a) = reconcile a) ∧
    (∀ (a : Account) (e : LevelLock), e ∈ levelLockedThemes →
        e.level ≤ a.level → e.key ∈ (reconcile a).inventory) ∧
    (∀ a : Account, (∀ k ∈ getLevelUnlockedThemes a.level, k ∈ a.inventory) →
        reconcile a = a) ∧
    (∀ a : Account, a.level = 10 → "football" ∈ (reconcile a).inventory) := by
  have hmem : ∀ (a : Account) (e : LevelLock), e ∈ levelLockedThemes →
      e.level ≤ a.level → e.key ∈ (reconcile a).inventory := by
    intro a e he hle
    apply mem_reconcile_of_levelUnlocked
    unfold getLevelUnlockedThemes
    exact List.mem_map_of_mem _ (List.mem_filter.mpr ⟨he, by simpa using hle⟩)
  refine ⟨?_, hmem, reconcile_eq_self, ?_⟩
  · intro a
    apply reconcile_eq_self
    intro k hk
    rw [reconcile_level] at hk
    exact mem_reconcile_of_levelUnlocked a k hk
  · intro a ha
    have he : ({ key := "football", level := 10 } : LevelLock) ∈
        levelLockedThemes := by simp [levelLockedThemes]
    simpa using hmem a { key := "football", level := 10 } he (by simp [ha])

/-- Claim C4 witness: `reconcile_idempotent` applied to a concrete level-10
account. -/
theorem reconcile_idempotent_witness :
    "football" ∈ (reconcile level10Account).inventory ∧
    reconcile (reconcile level10Account) = reconcile level10Account :=
  ⟨reconcile_idempotent.2.2.2 level10Account rfl,
   reconcile_idempotent.1 level10Account⟩

/-- An account on a 4-day streak whose last recorded login day is day 100. -/
def streak4Account : Account :=
  { emptyAccount with loginStreak := 4, loginStreakBest := 4, lastLoginDay := 100 }

/-- Claim C6: on a consecutive day `applyLoginDay` increments the streak,
raises the best streak to the max, and awards 10 coins plus the milestone
bonus; milestone bonuses exist exactly at streaks 5/10/20/50 (20/50/100/300
coins, from the source's `CoinsInfoModal`); a non-consecutive day resets the
streak to 1 with no award; and a second call for the same calendar day is a
no-op, so no double-award. -/
theorem applyLoginDay_policy :
    (∀ (a : Account) (d : Int), d = a.lastLoginDay + 1 →
        (applyLoginDay a d).loginStreak = a.loginStreak + 1 ∧
        (applyLoginDay a d).loginStreakBest =
          max a.loginStreakBest (a.loginStreak + 1) ∧
        (applyLoginDay a d).currency =
          a.currency + 10 + milestoneBonus (a.loginStreak + 1)) ∧
    (∀ (a : Account) (d : Int), d ≠ a.lastLoginDay → d ≠ a.lastLoginDay + 1 →
        (applyLoginDay a d).loginStreak = 1 ∧
        (applyLoginDay a d).currency = a.currency) ∧
    (milestoneBonus 5 = 20 ∧ milestoneBonus 10 = 50 ∧ milestoneBonus 20 = 100 ∧
      milestoneBonus 50 = 300) ∧
    (∀ s : Nat, s ≠ 5 → s ≠ 10 → s ≠ 20 → s ≠ 50 → milestoneBonus s = 0) ∧
    (∀ (a : Account) (d : Int),
        applyLoginDay (applyLoginDay a d) d = applyLoginDay a d) := by
  refine ⟨?_, ?_, ⟨rfl, rfl, rfl, rfl⟩, ?_, ?_⟩
  · intro a d hd
    have hne : d ≠ a.lastLoginDay := by omega
    unfold applyLoginDay
    rw [if_neg hne, if_pos hd]
    exact ⟨rfl, rfl, rfl⟩
  · intro a d h1 h2
    unfold applyLoginDay
    rw [if_neg h1, if_neg h2]
    exact ⟨rfl, rfl⟩
  · intro s h5 h10 h20 h50
    unfold milestoneBonus
    rw [if_neg h5, if_neg h10, if_neg h20, if_neg h50]
  · intro a d
    have hlast : (applyLoginDay a d).lastLoginDay = d := by
      unfold applyLoginDay
      split
      · next h => exact h.symm
      · split <;> rfl
    conv_lhs => rw [applyLoginDay]
    rw [if_pos hlast.symm]

/-- Claim C6 witness: `applyLoginDay_policy` on a concrete consecutive day
that crosses the 5-day milestone, plus the same-day no-op. -/
theorem applyLoginDay_policy_witness :
    (applyLoginDay streak4Account 101).loginStreak =
      streak4Account.loginStreak + 1 ∧
    (applyLoginDay streak4Account 101).currency =
      streak4Account.currency + 10 + milestoneBonus (streak4Account.loginStreak + 1) ∧
    applyLoginDay (applyLoginDay streak4Account 101) 101 =
      applyLoginDay streak4Account 101 := by
  have h := applyLoginDay_policy.1 streak4Account 101 (by decide)
  exact ⟨h.1, h.2.2, applyLoginDay_policy.2.2.2.2 streak4Account 101⟩

/-- The notice `toggleComplete` shows when the server rejects unchecking a
completed task (part_001 line 1064). -/
def uncheckNotice : String :=
  "Completed tasks stay completed. If this was an error, you can delete and recreate the task."

/-- `toggleComplete` (part_001 lines 1035-1068) composed with the modelled
server transition: on success adopt the updated account and task; on the
rejection error keep the state and show the non-fatal notice. -/
def toggleComplete (xpAward coinAward : Nat) (a : Account) (t : Task) :
    Account × Task × Option String :=
  match applyTaskCompletion xpAward coinAward a t with
  | .error _ => (a, t, some uncheckNotice)
  | .ok (a', t') => (a', t', none)

/-- A task that is already completed. -/
def doneTask : Task := { id := 1, completed := true }

/-- Claim C8: completing an already-completed task is rejected with
`InvalidStateTransition`; the composed client flow leaves the account and
the task unchanged and surfaces a notice instead of crashing.  Conversely a
successful completion only happens on a not-yet-completed task and marks it
completed (one-way transition). -/
theorem taskCompletion_one_way :
    (∀ (xpA cA : Nat) (a : Account) (t : Task), t.completed = true →
        applyTaskCompletion xpA cA a t = .error .InvalidStateTransition ∧
        toggleComplete xpA cA a t = (a, t, some uncheckNotice)) ∧
    (∀ (xpA cA : Nat) (a : Account) (t : Task) (a' : Account) (t' : Task),
        applyTaskCompletion xpA cA a t = .ok (a', t') →
        t.completed = false ∧ t'.completed = true) := by
  constructor
  · intro xpA cA a t ht
    have herr : applyTaskCompletion xpA cA a t = .error .InvalidStateTransition := by
      unfold applyTaskCompletion
      rw [if_pos ht]
    refine ⟨herr, ?_⟩
    unfold toggleComplete
    rw [herr]
  · intro xpA cA a t a' t' h
    unfold applyTaskCompletion at h
    by_cases ht : t.completed = true
    · rw [if_pos ht] at h; cases h
    · rw [if_neg ht] at h
      simp only [Except.ok.injEq, Prod.mk.injEq] at h
      refine ⟨by simpa using ht, ?_⟩
      rw [← h.2]

/-- Claim C8 witness: `taskCompletion_one_way` on a concrete completed
task. -/
theorem taskCompletion_one_way_witness :
    applyTaskCompletion 15 5 emptyAccount doneTask =
      .error .InvalidStateTransition ∧
    toggleComplete 15 5 emptyAccount doneTask =
      (emptyAccount, doneTask, some uncheckNotice) :=
  taskCompletion_one_way.1 15 5 emptyAccount doneTask rfl

/-- A signed-in level-1 buyer with plenty of coins and only the base themes
unlocked. -/
def c1Buyer : ClientState :=
  { signedIn := true, userLevel := 1, checkCoins := 1000,
    unlockedThemes := baseUnlockedThemes, titles := [],
    currentTheme := "default", currentTitle := "" }

/-- Claim C1 counterexample: "football" is both non-purchasable and
level-gated (unlockLevel 10); a signed-in level-1 buyer with ample coins
gets the level-too-low outcome, not the not-purchasable one, because
`handleThemePurchase` checks the level gate before the purchasable flag. -/
theorem purchaseOrder_counterexample :
    handleThemePurchase c1Buyer "football" = .levelTooLow ∧
    ClientPurchaseStep.levelTooLow ≠ ClientPurchaseStep.notPurchasable :=
  ⟨rfl, by decide⟩

/-- Claim C1 (amended): `handleThemePurchase` checks its preconditions in
source order with the first failure winning — item exists (silent return
otherwise), level gate (LevelTooLow), purchasable flag (NotPurchasable),
signed-in, not already unlocked (AlreadyOwned), sufficient funds
(InsufficientFunds) — and only then issues the server request; the
price-equality check is left to the server.  The level gate precedes the
purchasable check, so a below-level buyer of a non-purchasable level-gated
item gets LevelTooLow. -/
theorem purchaseOrder_amended :
    (∀ (st : ClientState) (k : String),
        themeStoreItems.find? (fun e => e.key == k) = none →
        handleThemePurchase st k = .noItem) ∧
    (∀ (st : ClientState) (k : String) (item : StoreItem),
        themeStoreItems.find? (fun e => e.key == k) = some item →
        (levelLocked item st.userLevel = true →
            handleThemePurchase st k = .levelTooLow) ∧
        (levelLocked item st.userLevel = false → item.purchasable = false →
            handleThemePurchase st k = .notPurchasable) ∧
        (levelLocked item st.userLevel = false → item.purchasable = true →
            st.signedIn = true → k ∈ st.unlockedThemes →
            handleThemePurchase st k = .alreadyOwned) ∧
        (levelLocked item st.userLevel = false → item.purchasable = true →
            st.signedIn = true → k ∉ st.unlockedThemes →
            st.checkCoins < item.price →
            handleThemePurchase st k = .insufficientFunds) ∧
        (levelLocked item st.userLevel = false → item.purchasable = true →
            st.signedIn = true → k ∉ st.unlockedThemes →
            ¬ st.checkCoins < item.price →
            handleThemePurchase st k = .requestServer item.price)) := by
  constructor
  · intro st k h
    unfold handleThemePurchase
    rw [h]
  · intro st k item h
    unfold handleThemePurchase
    rw [h]
    dsimp only
    refine ⟨?_, ?_, ?_, ?_, ?_⟩
    · intro hl
      rw [if_pos hl]
    · intro hl hp
      rw [if_neg (by simp [hl]), if_pos hp]
    · intro hl hp hs hmem
      rw [if_neg (by simp [hl]), if_neg (by simp [hp]), if_neg (by simp [hs]),
        if_pos hmem]
    · intro hl hp hs hmem hc
      rw [if_neg (by simp [hl]), if_neg (by simp [hp]), if_neg (by simp [hs]),
        if_neg hmem, if_pos hc]
    · intro hl hp hs hmem hc
      rw [if_neg (by simp [hl]), if_neg (by simp [hp]), if_neg (by simp [hs]),
        if_neg hmem, if_neg hc]

/-- Claim C1 witness: the amended characterization applied to the concrete
buyer purchasing "royalGarden": all checks pass and the server request is
issued at the catalog price. -/
theorem purchaseOrder_amended_witness :
    handleThemePurchase c1Buyer "royalGarden" = .requestServer 150 := by
  have h := (purchaseOrder_amended.2 c1Buyer "royalGarden"
      { key := "royalGarden", price := 150 } rfl).2.2.2.2
  exact h rfl rfl rfl (by decide) (by decide)

/-- A stored record with corrupted fields: negative xp, level below 1,
negative coins. -/
def corruptStored : StoredUser :=
  { xp := some (-5), level := some 0, checkCoins := some (-7) }

/-- Claim C5, evaluated at the failing input: the load path accepts the
corrupted record unchanged — it is a total function with no error result —
and the UI layer then silently coerces the values into range
(`xpProgress` clamps xp into [0,100], `userLevelOf` clamps level up to 1),
contradicting the requirement that out-of-range state be surfaced as a
data-integrity error rather than clamped. -/
theorem load_clamps_eval :
    loadStoredUser corruptStored = { xp := -5, level := 0, checkCoins := -7 } ∧
    xpProgress (some (-5)) = 0 ∧
    userLevelOf (some 0) = 1 ∧
    xpProgress (some 150) = 100 :=
  ⟨rfl, by decide, by decide, by decide⟩

/-- Claim C7: equip requires ownership.  An unowned theme or title is
rejected with NotOwned and the state is unchanged; a successful equip sets
only the corresponding current-theme/current-title field, touching neither
coins, nor the unlocked-theme set, nor the owned titles; equipping the item
already equipped returns the state unchanged. -/
theorem equip_requires_ownership :
    (∀ (st : ClientState) (k : String), k ∉ st.unlockedThemes →
        handleEquipTheme st k = (st, some .NotOwned)) ∧
    (∀ (st : ClientState) (k : String), st.signedIn = true → k ∉ st.titles →
        handleEquipTitle st k = (st, some .NotOwned)) ∧
    (∀ (st : ClientState) (k : String), k ∈ st.unlockedThemes →
        (handleEquipTheme st k).1.currentTheme = k ∧
        (handleEquipTheme st k).1.checkCoins = st.checkCoins ∧
        (handleEquipTheme st k).1.unlockedThemes = st.unlockedThemes ∧
        (handleEquipTheme st k).1.titles = st.titles ∧
        (handleEquipTheme st k).1.currentTitle = st.currentTitle) ∧
    (∀ (st : ClientState) (k : String), st.signedIn = true → k ∈ st.titles →
        (handleEquipTitle st k).1.currentTitle = k ∧
        (handleEquipTitle st k).1.checkCoins = st.checkCoins ∧
        (handleEquipTitle st k).1.unlockedThemes = st.unlockedThemes ∧
        (handleEquipTitle st k).1.titles = st.titles ∧
        (handleEquipTitle st k).1.currentTheme = st.currentTheme) ∧
    (∀ (st : ClientState) (k : String), k ∈ st.unlockedThemes →
        st.currentTheme = k → (handleEquipTheme st k).1 = st) ∧
    (∀ (st : ClientState) (k : String), st.signedIn = true → k ∈ st.titles →
        st.currentTitle = k → (handleEquipTitle st k).1 = st) := by
  refine ⟨?_, ?_, ?_, ?_, ?_, ?_⟩
  · intro st k h
    unfold handleEquipTheme
    rw [if_neg h]
  · intro st k hs h
    unfold handleEquipTitle
    rw [if_neg (by simp [hs]), if_neg h]
  · intro st k h
    unfold handleEquipTheme
    rw [if_pos h]
    exact ⟨rfl, rfl, rfl, rfl, rfl⟩
  · intro st k hs h
    unfold handleEquipTitle
    rw [if_neg (by simp [hs]), if_pos h]
    exact ⟨rfl, rfl, rfl, rfl, rfl⟩
  · intro st k h hcur
    unfold handleEquipTheme
    rw [if_pos h]
    subst hcur
    rfl
  · intro st k hs h hcur
    unfold handleEquipTitle
    rw [if_neg (by simp [hs]), if_pos h]
    subst hcur
    rfl

/-- A signed-in client owning two themes and one title. -/
def equipState : ClientState :=
  { signedIn := true, userLevel := 1, checkCoins := 7,
    unlockedThemes := ["default", "cozy"], titles := ["junior"],
    currentTheme := "default", currentTitle := "" }

/-- Claim C7 witness: `equip_requires_ownership` at concrete inputs — an
unowned theme is rejected, an owned theme equips. -/
theorem equip_requires_ownership_witness :
    handleEquipTheme equipState "royalGarden" =
      (equipState, some CoreError.NotOwned) ∧
    (handleEquipTheme equipState "cozy").1.currentTheme = "cozy" ∧
    handleEquipTitle equipState "rookie" = (equipState, some CoreError.NotOwned) :=
  ⟨equip_requires_ownership.1 equipState "royalGarden" (by decide),
   (equip_requires_ownership.2.2.1 equipState "cozy" (by decide)).1,
   equip_requires_ownership.2.1 equipState "rookie" rfl (by decide)⟩

/-- Claim C9: the inventory is append-only.  Reconcile and a successful
purchase only ever extend the inventory; the login ledger, XP awards, task
completion, goal scoring and both equip handlers leave the owned-item sets
untouched. -/
theorem inventory_append_only :
    (∀ a : Account, a.inventory ⊆ (reconcile a).inventory) ∧
    (∀ (catalog : List StoreItem) (a : Account) (k : String) (p : Nat)
        (a' : Account), purchase catalog a k p = .ok a' →
        a.inventory ⊆ a'.inventory) ∧
    (∀ (a : Account) (d : Int), (applyLoginDay a d).inventory = a.inventory) ∧
    (∀ (xpA cA : Nat) (a : Account) (t : Task) (a' : Account) (t' : Task),
        applyTaskCompletion xpA cA a t = .ok (a', t') →
        a'.inventory = a.inventory) ∧
    (∀ (a : Account) (n : Nat), (addXp a n).inventory = a.inventory) ∧
    (∀ a : Account, (applyGoalScored a).inventory = a.inventory) ∧
    (∀ (st : ClientState) (k : String),
        (handleEquipTheme st k).1.unlockedThemes = st.unlockedThemes ∧
        (handleEquipTheme st k).1.titles = st.titles ∧
        (handleEquipTitle st k).1.unlockedThemes = st.unlockedThemes ∧
        (handleEquipTitle st k).1.titles = st.titles) := by
  refine ⟨reconcile_inventory_superset, ?_, ?_, ?_, ?_, ?_, ?_⟩
  · intro catalog a k p a' h
    obtain ⟨item, -, -, -, -, -, -, hrec⟩ := purchase_ok_spec catalog a k p a' h
    subst hrec
    exact List.subset_append_left _ _
  · intro a d
    unfold applyLoginDay
    split
    · rfl
    · split <;> rfl
  · intro xpA cA a t a' t' h
    unfold applyTaskCompletion at h
    by_cases ht : t.completed = true
    · rw [if_pos ht] at h; cases h
    · rw [if_neg ht] at h
      simp only [Except.ok.injEq, Prod.mk.injEq] at h
      rw [← h.1]
      rfl
  · intro a n
    rfl
  · intro a
    rfl
  · intro st k
    refine ⟨?_, ?_, ?_, ?_⟩
    · unfold handleEquipTheme
      split <;> rfl
    · unfold handleEquipTheme
      split <;> rfl
    · unfold handleEquipTitle
      split
      · rfl
      · split <;> rfl
    · unfold handleEquipTitle
      split
      · rfl
      · split <;> rfl

/-- Claim C9 witness: `inventory_append_only` at the concrete successful
purchase scenario. -/
theorem inventory_append_only_witness :
    account200.inventory ⊆ account200After.inventory :=
  inventory_append_only.2.1 themeStoreItems account200 "royalGarden" 150
    account200After rfl

/-- Claim C10: the equippable-theme set computed by
`syncUnlockedFromInventory` always contains every base theme and never
contains a level-locked theme whose requirement exceeds the account level —
"football" stays excluded below level 10 even when its key sits in the
stored inventory — and when the active theme falls outside the unlocked set
the fallback resets it to "default", which is itself always in the set. -/
theorem syncUnlocked_invariant :
    (∀ (stored inv : List String) (level : Nat) (k : String),
        k ∈ baseUnlockedThemes →
        k ∈ syncUnlockedFromInventory stored inv level) ∧
    (∀ (stored inv : List String) (level : Nat) (e : LevelLock),
        e ∈ levelLockedThemes → level < e.level →
        e.key ∉ syncUnlockedFromInventory stored inv level) ∧
    (∀ (stored inv : List String) (level : Nat), level < 10 →
        "football" ∉ syncUnlockedFromInventory stored ("football" :: inv) level) ∧
    (∀ (unlocked : List String) (theme : String), theme ∉ unlocked →
        themeFallback unlocked theme = "default") ∧
    (∀ (stored inv : List String) (level : Nat) (theme : String),
        themeFallback (syncUnlockedFromInventory stored inv level) theme ∈
          syncUnlockedFromInventory stored inv level) := by
  have hbasemem : ∀ (stored inv : List String) (level : Nat) (k : String),
      k ∈ baseUnlockedThemes → k ∈ syncUnlockedFromInventory stored inv level := by
    intro stored inv level k hk
    unfold syncUnlockedFromInventory filterThemesByLevel
    rw [List.mem_filter]
    constructor
    · rw [mem_jsSetOf]
      simp only [List.mem_append]
      exact Or.inl (Or.inl (Or.inl hk))
    · have hnone : themeLevelRequirement k = none := by
        have hbase : baseUnlockedThemes = ["default", "cozy", "minimal", "space"] :=
          rfl
        rw [hbase] at hk
        fin_cases hk <;> rfl
      rw [hnone]
  have hlocked : ∀ (stored inv : List String) (level : Nat) (e : LevelLock),
      e ∈ levelLockedThemes → level < e.level →
      e.key ∉ syncUnlockedFromInventory stored inv level := by
    intro stored inv level e he hlt hmem
    have heq : e = { key := "football", level := 10 } := by
      simpa [levelLockedThemes] using he
    subst heq
    unfold syncUnlockedFromInventory filterThemesByLevel at hmem
    rw [List.mem_filter] at hmem
    have hpred := hmem.2
    dsimp only at hpred
    rw [show themeLevelRequirement "football" = some 10 from rfl] at hpred
    simp only [decide_eq_true_eq] at hpred
    simp only at hlt
    omega
  refine ⟨hbasemem, hlocked, ?_, ?_, ?_⟩
  · intro stored inv level hlv
    exact hlocked stored ("football" :: inv) level
      { key := "football", level := 10 } (by simp [levelLockedThemes])
      (by simpa using hlv)
  · intro unlocked theme h
    unfold themeFallback
    rw [if_neg h]
    rfl
  · intro stored inv level theme
    unfold themeFallback
    split
    · next h => exact h
    · exact hbasemem stored inv level "default" (by decide)

/-- Claim C10 witness: `syncUnlocked_invariant` at concrete inputs — the
default base theme is always unlocked, "football" injected into a stored
inventory stays excluded at level 9, and an unavailable active theme falls
back to "default". -/
theorem syncUnlocked_invariant_witness :
    "default" ∈ syncUnlockedFromInventory [] [] 1 ∧
    "football" ∉ syncUnlockedFromInventory [] ["football"] 9 ∧
    themeFallback ["default", "cozy"] "football" = "default" :=
  ⟨syncUnlocked_invariant.1 [] [] 1 "default" (by decide),
   syncUnlocked_invariant.2.2.1 [] [] 9 (by decide),
   syncUnlocked_invariant.2.2.2.1 ["default", "cozy"] "football" (by decide)⟩

end TodoApi
